import Mathlib

/-!
Verification development for `conference_map_clean.py`, a linear pipeline that
loads a text file of document titles, embeds them, reduces dimensionality with
UMAP, fits a BERTopic model backed by HDBSCAN, and renders/writes three
visualization artifacts inside a single try/except block.

Strings from the Python side are modelled as `List Char`. The external
collaborators (sentence encoder, UMAP, HDBSCAN, BERTopic) are not part of the
repository; they enter the development as abstract functions, and the parts of
their behavior the spec relies on (one output per input, same order; the
clusterer labelling the data it is handed; BERTopic using the reduction and
clusterer it is configured with) are modelled from the spec's component
descriptions, as documented on each definition.
-/

/-! ## Loader (line 36 of the source)

`docs = [item.rstrip("\n") for item in open(f"{FILE_NAME}.txt").readlines() if item != "\n"]`
-/

/-- Python's text-mode universal-newline translation, applied by `open()` with
the default `newline=None` before any line splitting: `"\r\n"` and a lone
`"\r"` both become `"\n"`. -/
def universalNewlines : List Char → List Char
  | [] => []
  | [c] => if c = '\r' then ['\n'] else [c]
  | c1 :: c2 :: cs =>
    if c1 = '\r' then
      if c2 = '\n' then '\n' :: universalNewlines cs
      else '\n' :: universalNewlines (c2 :: cs)
    else c1 :: universalNewlines (c2 :: cs)

/-- Python `file.readlines()` on the decoded text stream (the file content
after universal-newline translation): splits after every newline character,
keeping the newline at the end of each line; a final segment with no trailing
newline is returned as-is; the empty stream yields no lines. `acc` holds the
characters of the current line in reverse. -/
def readlinesAux : List Char → List Char → List (List Char)
  | [], acc => if acc.isEmpty then [] else [acc.reverse]
  | c :: cs, acc =>
    if c = '\n' then (acc.reverse ++ ['\n']) :: readlinesAux cs []
    else readlinesAux cs (c :: acc)

/-- Python `readlines()` over a whole decoded text stream. -/
def readlines (content : List Char) : List (List Char) :=
  readlinesAux content []

/-- Python `item.rstrip("\n")`: removes every trailing newline character. -/
def rstripNL (l : List Char) : List Char :=
  (l.reverse.dropWhile (fun c => c = '\n')).reverse

/-- The spec's wording of the loader's per-line transformation: strip the (one)
trailing newline when present. Used to compare the source's `rstrip` against
the spec's description. -/
def stripOneTrailingNL (l : List Char) : List Char :=
  if l.getLast? = some '\n' then l.dropLast else l

/-- The list comprehension of source line 36 over the decoded text stream:
keep the lines that are not exactly `"\n"`, in file order, each with trailing
newlines stripped. -/
def loadDocs (content : List Char) : List (List Char) :=
  ((readlines content).filter (fun item => item ≠ ['\n'])).map rstripNL

/-- Source line 36 end to end, starting from the raw on-disk file content:
`open()` in text mode first applies universal-newline translation, then
`readlines`, the blank-line filter, and `rstrip("\n")` run on the decoded
stream. -/
def loadDocsRaw (raw : List Char) : List (List Char) :=
  loadDocs (universalNewlines raw)

/-! ## Fixed configuration (source lines 7-11, 33, 48-57, 64-72, 75-81) -/

/-- Source line 33: the hardcoded base name for the input and output files. -/
def FILE_NAME : String := "titles"

/-- Source line 48: `n_neighbors = min(15, len(docs) - 1)`. Python subtraction
does not truncate at zero, so the result is an integer (`-1` at `n = 0`). -/
def n_neighbors (n : Nat) : Int := min 15 ((n : Int) - 1)

/-- The keyword arguments of the `UMAP(...)` constructor call, lines 49-57. -/
structure UMAPParams where
  n_neighbors : Int
  n_components : Nat
  min_dist : ℚ
  metric : String
  random_state : Nat
  low_memory : Bool
  n_jobs : Nat
  deriving DecidableEq, Repr

/-- The `UMAP(...)` construction of lines 49-57 for a corpus of `n` documents. -/
def mkUmapParams (n : Nat) : UMAPParams :=
  { n_neighbors := n_neighbors n
    n_components := 2
    min_dist := 0
    metric := "cosine"
    random_state := 42
    low_memory := true
    n_jobs := 1 }

/-- The keyword arguments of the `HDBSCAN(...)` constructor call, lines 64-70. -/
structure HDBSCANParams where
  min_cluster_size : Nat
  min_samples : Nat
  metric : String
  cluster_selection_method : String
  core_dist_n_jobs : Nat
  deriving DecidableEq, Repr

/-- The `HDBSCAN(...)` construction of lines 64-70 for a corpus of `n`
documents: `min_cluster_size = max(2, len(docs) // 20)`. -/
def mkHdbscanParams (n : Nat) : HDBSCANParams :=
  { min_cluster_size := max 2 (n / 20)
    min_samples := 1
    metric := "euclidean"
    cluster_selection_method := "eom"
    core_dist_n_jobs := 1 }

/-- The keyword arguments of the `CountVectorizer(...)` call, line 72. -/
structure VectorizerParams where
  stop_words : String
  min_df : Nat
  max_df : ℚ
  deriving DecidableEq, Repr

/-- The `CountVectorizer(stop_words="english", min_df=1, max_df=0.95)` call. -/
def vectorizerParams : VectorizerParams :=
  { stop_words := "english", min_df := 1, max_df := (0.95 : ℚ) }

/-- Source lines 7-11: the five environment variables force-set to `"1"` before
any numeric library is imported, capping every thread pool to one thread. -/
def envSetup : List (String × String) :=
  [("OMP_NUM_THREADS", "1"),
   ("OPENBLAS_NUM_THREADS", "1"),
   ("MKL_NUM_THREADS", "1"),
   ("VECLIB_MAXIMUM_THREADS", "1"),
   ("NUMEXPR_NUM_THREADS", "1")]

/-! ## External collaborators

`Emb` is the type of a full-dimensional embedding vector, `Pt` the type of a
2-dimensional reduced point. The collaborator behavior is abstracted by
functions: `encode` maps one document to one vector (spec 4.2: "one numeric
vector per document, same order"); `umapPoint X e` is the 2D point the
reduction fitted on data set `X` assigns to vector `e` (spec 4.3: "one 2D
point per input embedding, same order"); `hdbLabel p X e` is the cluster label
the clusterer configured by `p` and fitted on `X` assigns to `e` (spec 4.4:
"one cluster label per document"). -/

/-- A UMAP model object: its constructor parameters plus the data it was
fitted on (`none` before any fit). -/
structure UMAPState (Emb : Type) where
  params : UMAPParams
  fittedOn : Option (List Emb)
  deriving DecidableEq, Repr

/-- Modelled from the spec: `umap_model.fit_transform(X)` (source line 58) fits
the model on `X` and returns one 2D point per row of `X`, in the same order
(spec 4.3). The fitted state records the data it was fitted on. -/
def umapFitTransform {Emb Pt : Type} (umapPoint : List Emb → Emb → Pt)
    (m : UMAPState Emb) (X : List Emb) : UMAPState Emb × List Pt :=
  ({ params := m.params, fittedOn := some X }, X.map (umapPoint X))

/-- The `BERTopic(...)` object of lines 75-81: the sub-models it is configured
with and the two flags passed to the constructor. -/
structure BERTopicModel (Emb : Type) where
  umap_model : UMAPState Emb
  hdbscan_model : HDBSCANParams
  vectorizer_model : VectorizerParams
  verbose : Bool
  calculate_probabilities : Bool
  deriving DecidableEq, Repr

/-- What `topic_model.fit_transform` returns and consumes: the fitted model,
the per-document topic labels, and the data the clusterer operated on. -/
structure BERTopicFitResult (Emb : Type) where
  fittedModel : BERTopicModel Emb
  topics : List Int
  clustererInput : List Emb

/-- Modelled from the spec: the internals of `topic_model.fit_transform(docs,
embeddings)` (source line 85) are in the external BERTopic library, not in this
repository. Per spec 4.4 ("Input: embeddings (full-dimensional, not the 2D
projection)") and 4.5(a) ("fit cluster assignments over the embeddings"), the
clusterer is fitted on the embedding matrix handed to `fit_transform` and
yields one label per row; per spec 4.3, the already-fitted reduction passed in
at construction is used as-is and not refit, so the fitted model keeps its
sub-models unchanged. -/
def bertopicFitTransform {Emb : Type} (hdbLabel : HDBSCANParams → List Emb → Emb → Int)
    (tm : BERTopicModel Emb) (docs : List (List Char)) (embeddings : List Emb) :
    BERTopicFitResult Emb :=
  { fittedModel := tm
    topics := embeddings.map (hdbLabel tm.hdbscan_model embeddings)
    clustererInput := embeddings }

/-! ## The fitting stage of `main()` (source lines 33-85, 96, 105) -/

/-- Everything `main()` has computed once `fit_transform` returns, plus the
coordinate arguments later handed to the two coordinate-consuming renderers
(`reduced_embeddings=reduced_embeddings` at lines 96 and 105). -/
structure RunArtifacts (Emb Pt : Type) where
  docs : List (List Char)
  embeddings : List Emb
  umapFitted : UMAPState Emb
  reduced_embeddings : List Pt
  topic_model : BERTopicModel Emb
  clustererInput : List Emb
  topics : List Int
  visualizeDocumentsCoords : List Pt
  visualizeDatamapCoords : List Pt

/-- The fitting stage of `main()`, lines 33-85, with the renderers' coordinate
arguments of lines 96 and 105: load documents, encode each document, fit-and-
transform UMAP on the embeddings, build the BERTopic model around the fitted
UMAP, HDBSCAN, and vectorizer objects, and fit it on `(docs, embeddings)`. -/
def runFit {Emb Pt : Type} (encode : List Char → Emb)
    (umapPoint : List Emb → Emb → Pt)
    (hdbLabel : HDBSCANParams → List Emb → Emb → Int)
    (content : List Char) : RunArtifacts Emb Pt :=
  let docs := loadDocs content
  let embeddings := docs.map encode
  let umap_model : UMAPState Emb := { params := mkUmapParams docs.length, fittedOn := none }
  let fitRes := umapFitTransform umapPoint umap_model embeddings
  let umapFitted := fitRes.1
  let reduced_embeddings := fitRes.2
  let topic_model : BERTopicModel Emb :=
    { umap_model := umapFitted
      hdbscan_model := mkHdbscanParams docs.length
      vectorizer_model := vectorizerParams
      verbose := true
      calculate_probabilities := false }
  let fit := bertopicFitTransform hdbLabel topic_model docs embeddings
  { docs := docs
    embeddings := embeddings
    umapFitted := umapFitted
    reduced_embeddings := reduced_embeddings
    topic_model := fit.fittedModel
    clustererInput := fit.clustererInput
    topics := fit.topics
    visualizeDocumentsCoords := reduced_embeddings
    visualizeDatamapCoords := reduced_embeddings }

/-! ## The visualization try/except block (source lines 93-141) -/

/-- The seven fallible calls inside the `try:` block, in source order:
`visualize_documents` (line 96), `hierarchical_topics` (line 100),
`visualize_hierarchy` (line 101), `visualize_document_datamap` (line 105),
`figure_doc.write_html` (line 118), `fig_hierarchical_clustering.write_html`
(line 122), `figure_datamap.savefig` (line 126). -/
inductive VizStep where
  | visualizeDocuments
  | hierarchicalTopics
  | visualizeHierarchy
  | visualizeDatamap
  | writeDocumentHtml
  | writeHierarchicalHtml
  | saveDatamapPng
  deriving DecidableEq, Repr

/-- The source order of the calls in the `try:` block. -/
def vizOrder : List VizStep :=
  [VizStep.visualizeDocuments, VizStep.hierarchicalTopics, VizStep.visualizeHierarchy,
   VizStep.visualizeDatamap, VizStep.writeDocumentHtml, VizStep.writeHierarchicalHtml,
   VizStep.saveDatamapPng]

/-- One file produced by the block, with the raster options when the file is
saved through `savefig` rather than `write_html`. -/
structure FileWrite where
  name : String
  dpi : Option Nat
  bbox_inches : Option String
  deriving DecidableEq, Repr

/-- The file (if any) each step writes: the two `write_html` calls of lines
118 and 122 and the `savefig(f"{FILE_NAME}_datamap.png", dpi=150,
bbox_inches='tight')` call of line 126; render steps write nothing. -/
def stepWrite : VizStep → Option FileWrite
  | VizStep.writeDocumentHtml =>
      some { name := FILE_NAME ++ "_document.html", dpi := none, bbox_inches := none }
  | VizStep.writeHierarchicalHtml =>
      some { name := FILE_NAME ++ "_hierarchical.html", dpi := none, bbox_inches := none }
  | VizStep.saveDatamapPng =>
      some { name := FILE_NAME ++ "_datamap.png", dpi := some 150, bbox_inches := some "tight" }
  | _ => none

/-- The console output relevant to the except-handler contract: the three
prints of the handler (lines 137, 138, 140), the line-139 note that the model
itself trained, the line-129 success banner, and the line-141 print that runs
after the try/except either way. -/
inductive ConsoleEvent where
  | errorMessage (e : String)
  | traceback (e : String)
  | modelTrainedNote
  | topicInfoTable
  | successBanner
  | finalNote
  deriving DecidableEq, Repr

/-- The observable outcome of the visualization stage: the files written, the
handler-relevant console events, and the process exit code. -/
structure VizResult where
  files : List FileWrite
  console : List ConsoleEvent
  exitCode : Nat
  deriving DecidableEq, Repr

/-- Run the calls of the `try:` block in order, `oc` giving each call's
outcome: on the first exception the remaining calls are skipped and the
exception is returned; the files written by the calls that already succeeded
remain written. -/
def runSteps (oc : VizStep → Except String Unit) : List VizStep → List FileWrite × Option String
  | [] => ([], none)
  | s :: rest =>
    match oc s with
    | Except.error e => ([], some e)
    | Except.ok _ =>
      let r := runSteps oc rest
      ((stepWrite s).toList ++ r.1, r.2)

/-- The whole `try/except` block of lines 93-141: run the seven calls in
order; if one raises, the handler prints the error message, the traceback, the
trained-model note, and the topic-info table; otherwise the success banner is
printed. Line 141 prints either way, and `main` returns normally in both
cases, so the process exits with code 0. -/
def runTryBlock (oc : VizStep → Except String Unit) : VizResult :=
  match (runSteps oc vizOrder).2 with
  | some e =>
      { files := (runSteps oc vizOrder).1
        console := [ConsoleEvent.errorMessage e, ConsoleEvent.traceback e,
                    ConsoleEvent.modelTrainedNote, ConsoleEvent.topicInfoTable,
                    ConsoleEvent.finalNote]
        exitCode := 0 }
  | none =>
      { files := (runSteps oc vizOrder).1
        console := [ConsoleEvent.successBanner, ConsoleEvent.finalNote]
        exitCode := 0 }

/-! ## Helper lemmas about the loader -/

/-- Every line `readlinesAux` produces carries a newline only in its final
position: before the last character there is no newline, provided the
accumulator holds no newline. -/
theorem no_inner_nl_of_mem_readlinesAux (cs : List Char) :
    ∀ acc, (∀ c ∈ acc, c ≠ '\n') → ∀ l ∈ readlinesAux cs acc, '\n' ∉ l.dropLast := by
  induction cs with
  | nil =>
    intro acc hacc l hl
    simp only [readlinesAux] at hl
    by_cases h : acc.isEmpty
    · rw [if_pos h] at hl
      exact absurd hl (List.not_mem_nil l)
    · rw [if_neg h] at hl
      rw [List.mem_singleton] at hl
      subst hl
      intro hmem
      have hrev : '\n' ∈ acc.reverse := List.dropLast_subset _ hmem
      rw [List.mem_reverse] at hrev
      exact hacc _ hrev rfl
  | cons c cs ih =>
    intro acc hacc l hl
    simp only [readlinesAux] at hl
    by_cases hc : c = '\n'
    · rw [if_pos hc] at hl
      rcases List.mem_cons.1 hl with hl | hl
      · subst hl
        rw [List.dropLast_concat]
        intro hmem
        rw [List.mem_reverse] at hmem
        exact hacc _ hmem rfl
      · exact ih [] (by simp) l hl
    · rw [if_neg hc] at hl
      refine ih (c :: acc) ?_ l hl
      intro d hd
      rcases List.mem_cons.1 hd with rfl | hd
      · exact hc
      · exact hacc _ hd

/-- Dropping leading newlines from a list that contains none is the identity. -/
theorem dropWhile_nl_eq_self (m : List Char) (h : '\n' ∉ m) :
    m.dropWhile (fun c => c = '\n') = m := by
  cases m with
  | nil => rfl
  | cons a t =>
    have ha : ¬(a = '\n') := fun han => h (han ▸ List.mem_cons_self a t)
    simp [List.dropWhile_cons, ha]

/-- On a line with no newline before its last character, Python's
`rstrip("\n")` agrees with the spec's "strip the trailing newline". -/
theorem rstripNL_eq_stripOne (l : List Char) (h : '\n' ∉ l.dropLast) :
    rstripNL l = stripOneTrailingNL l := by
  induction l using List.reverseRecOn with
  | nil => rfl
  | append_singleton xs x _ =>
    rw [List.dropLast_concat] at h
    by_cases hx : x = '\n'
    · subst hx
      unfold rstripNL stripOneTrailingNL
      rw [List.reverse_append, List.getLast?_concat, if_pos rfl, List.dropLast_concat]
      have hrev : '\n' ∉ xs.reverse := fun hm => h (List.mem_reverse.1 hm)
      simp [List.dropWhile_cons, dropWhile_nl_eq_self xs.reverse hrev]
    · unfold rstripNL stripOneTrailingNL
      rw [List.reverse_append, List.getLast?_concat]
      rw [if_neg (by simp [hx])]
      simp [List.dropWhile_cons, hx]

/-! ## Claim theorems: loader -/

/-- C5: for every valid non-empty input file, the loaded document sequence is
exactly the non-blank lines of the file (the lines different from `"\n"`), in
file order, each with its trailing newline stripped; in particular the number
of loaded documents equals the number of non-blank lines. -/
theorem C5_loader_keeps_nonblank_lines (content : List Char) (hne : content ≠ []) :
    loadDocs content
      = ((readlines content).filter (fun item => item ≠ ['\n'])).map stripOneTrailingNL ∧
    (loadDocs content).length
      = ((readlines content).filter (fun item => item ≠ ['\n'])).length := by
  constructor
  · unfold loadDocs
    apply List.map_congr_left
    intro l hl
    apply rstripNL_eq_stripOne
    exact no_inner_nl_of_mem_readlinesAux content [] (by simp) l (List.mem_of_mem_filter hl)
  · unfold loadDocs
    rw [List.length_map]

/-- Witness for C5 on the concrete file content `"ab\n\ncd\n"`. -/
theorem C5_loader_keeps_nonblank_lines_witness :
    ("ab\n\ncd\n".data ≠ ([] : List Char)) ∧
    loadDocs "ab\n\ncd\n".data
      = ((readlines "ab\n\ncd\n".data).filter (fun item => item ≠ ['\n'])).map
          stripOneTrailingNL ∧
    (loadDocs "ab\n\ncd\n".data).length
      = ((readlines "ab\n\ncd\n".data).filter (fun item => item ≠ ['\n'])).length :=
  ⟨by decide, C5_loader_keeps_nonblank_lines "ab\n\ncd\n".data (by decide)⟩

/-- Characters of a `dropWhile` result all come from the input list. -/
theorem mem_of_mem_dropWhile (p : Char → Bool) :
    ∀ (m : List Char) (c : Char), c ∈ m.dropWhile p → c ∈ m := by
  intro m
  induction m with
  | nil => intro c hc; simp at hc
  | cons a t ih =>
    intro c hc
    rw [List.dropWhile_cons] at hc
    by_cases hp : p a = true
    · rw [if_pos hp] at hc
      exact List.mem_cons_of_mem a (ih c hc)
    · rw [if_neg hp] at hc
      exact hc

/-- Every character of a line produced by `readlinesAux` comes from the input
stream or from the accumulator. -/
theorem mem_stream_of_mem_readlinesAux (cs : List Char) :
    ∀ acc l c, l ∈ readlinesAux cs acc → c ∈ l → c ∈ cs ∨ c ∈ acc := by
  induction cs with
  | nil =>
    intro acc l c hl hc
    simp only [readlinesAux] at hl
    by_cases h : acc.isEmpty
    · rw [if_pos h] at hl
      exact absurd hl (List.not_mem_nil l)
    · rw [if_neg h] at hl
      rw [List.mem_singleton] at hl
      subst hl
      exact Or.inr (List.mem_reverse.1 hc)
  | cons a cs ih =>
    intro acc l c hl hc
    simp only [readlinesAux] at hl
    by_cases ha : a = '\n'
    · subst ha
      rw [if_pos rfl] at hl
      rcases List.mem_cons.1 hl with hl | hl
      · subst hl
        rcases List.mem_append.1 hc with hc | hc
        · exact Or.inr (List.mem_reverse.1 hc)
        · rw [List.mem_singleton] at hc
          subst hc
          exact Or.inl (List.mem_cons_self _ cs)
      · rcases ih [] l c hl hc with h | h
        · exact Or.inl (List.mem_cons_of_mem _ h)
        · exact absurd h (List.not_mem_nil c)
    · rw [if_neg ha] at hl
      rcases ih (a :: acc) l c hl hc with h | h
      · exact Or.inl (List.mem_cons_of_mem a h)
      · rcases List.mem_cons.1 h with rfl | h
        · exact Or.inl (List.mem_cons_self c cs)
        · exact Or.inr h

/-- Universal-newline translation leaves no carriage return in the decoded
stream: both `"\r\n"` and a lone `"\r"` become `"\n"`. -/
theorem cr_not_mem_universalNewlines : ∀ raw : List Char, '\r' ∉ universalNewlines raw
  | [] => by simp [universalNewlines]
  | [c] => by
    by_cases hc : c = '\r'
    · subst hc
      decide
    · intro hmem
      rw [show universalNewlines [c] = [c] from by simp [universalNewlines, hc]] at hmem
      rw [List.mem_singleton] at hmem
      exact hc hmem.symm
  | c1 :: c2 :: cs => by
    by_cases h1 : c1 = '\r'
    · subst h1
      by_cases h2 : c2 = '\n'
      · subst h2
        intro hmem
        rw [show universalNewlines ('\r' :: '\n' :: cs) = '\n' :: universalNewlines cs from by
              simp [universalNewlines]] at hmem
        rcases List.mem_cons.1 hmem with h | h
        · exact absurd h (by decide)
        · exact cr_not_mem_universalNewlines cs h
      · intro hmem
        rw [show universalNewlines ('\r' :: c2 :: cs)
              = '\n' :: universalNewlines (c2 :: cs) from by
              simp [universalNewlines, h2]] at hmem
        rcases List.mem_cons.1 hmem with h | h
        · exact absurd h (by decide)
        · exact cr_not_mem_universalNewlines (c2 :: cs) h
    · intro hmem
      rw [show universalNewlines (c1 :: c2 :: cs)
            = c1 :: universalNewlines (c2 :: cs) from by
            simp [universalNewlines, h1]] at hmem
      rcases List.mem_cons.1 hmem with h | h
      · exact h1 h.symm
      · exact cr_not_mem_universalNewlines (c2 :: cs) h

/-- Counterexample to C10 as frozen: the program opens the file in text mode,
so universal-newline translation turns the CRLF ending of the raw content
`"ab\r\n"` into `"\n"` before `readlines` splits; the loaded document is
`"ab"`, and no carriage return remains at its end. -/
theorem C10_crlf_counterexample :
    loadDocsRaw "ab\r\n".data = ["ab".data] ∧
    ("ab".data).getLast? ≠ some '\r' := by decide

/-- C10 (amended): the loader drops only lines that are exactly `"\n"`: any
other line of the decoded stream (for example one made only of blanks) is
kept as a document after `rstrip("\n")`; but because the file is read in text
mode, universal-newline translation rewrites CRLF (and lone CR) endings to
`"\n"` before the lines are split, so a kept line never loads with a carriage
return at its end — the loaded document contains no carriage return at all. -/
theorem C10_only_lone_newline_dropped (raw l : List Char)
    (h1 : l ∈ readlines (universalNewlines raw)) (h2 : l ≠ ['\n']) :
    rstripNL l ∈ loadDocsRaw raw ∧
    '\r' ∉ rstripNL l := by
  constructor
  · unfold loadDocsRaw loadDocs
    exact List.mem_map_of_mem _ (List.mem_filter.2 ⟨h1, by simpa using h2⟩)
  · intro hmem
    simp only [rstripNL] at hmem
    have h3 : '\r' ∈ l.reverse.dropWhile (fun c => c = '\n') := List.mem_reverse.1 hmem
    have h4 : '\r' ∈ l := List.mem_reverse.1 (mem_of_mem_dropWhile _ _ _ h3)
    rcases mem_stream_of_mem_readlinesAux (universalNewlines raw) [] l '\r'
        (show l ∈ readlinesAux (universalNewlines raw) [] from h1) h4 with h5 | h5
    · exact cr_not_mem_universalNewlines raw h5
    · exact List.not_mem_nil '\r' h5

/-- Witness for C10 (amended) on the raw file `"  \nab\r\n"`: the all-blank
line `"  \n"` is kept (as `"  "`), the translated CRLF line `"ab\n"` is kept
(as `"ab"`), and neither loaded document contains a carriage return. -/
theorem C10_only_lone_newline_dropped_witness :
    (rstripNL "  \n".data ∈ loadDocsRaw "  \nab\r\n".data ∧
      '\r' ∉ rstripNL "  \n".data) ∧
    (rstripNL "ab\n".data ∈ loadDocsRaw "  \nab\r\n".data ∧
      '\r' ∉ rstripNL "ab\n".data) :=
  ⟨C10_only_lone_newline_dropped "  \nab\r\n".data "  \n".data (by decide) (by decide),
   C10_only_lone_newline_dropped "  \nab\r\n".data "ab\n".data (by decide) (by decide)⟩

/-! ## Claim theorems: fitting stage -/

/-- C1: after the fitting stage the documents, embeddings, reduced 2D
coordinates, and per-document topic assignments all have the same length, and
position `i` of each sequence refers to document `i`: the `i`-th embedding is
the encoding of the `i`-th document, the `i`-th reduced coordinate is the
fitted reduction's image of the `i`-th embedding, and the `i`-th topic label
is the fitted clusterer's label for the `i`-th embedding. -/
theorem C1_fit_stage_alignment {Emb Pt : Type} (encode : List Char → Emb)
    (umapPoint : List Emb → Emb → Pt) (hdbLabel : HDBSCANParams → List Emb → Emb → Int)
    (content : List Char) :
    (runFit encode umapPoint hdbLabel content).embeddings.length
      = (runFit encode umapPoint hdbLabel content).docs.length ∧
    (runFit encode umapPoint hdbLabel content).reduced_embeddings.length
      = (runFit encode umapPoint hdbLabel content).docs.length ∧
    (runFit encode umapPoint hdbLabel content).topics.length
      = (runFit encode umapPoint hdbLabel content).docs.length ∧
    (∀ i : Nat,
      (runFit encode umapPoint hdbLabel content).embeddings[i]?
        = ((runFit encode umapPoint hdbLabel content).docs[i]?).map encode ∧
      (runFit encode umapPoint hdbLabel content).reduced_embeddings[i]?
        = ((runFit encode umapPoint hdbLabel content).embeddings[i]?).map
            (umapPoint (runFit encode umapPoint hdbLabel content).embeddings) ∧
      (runFit encode umapPoint hdbLabel content).topics[i]?
        = ((runFit encode umapPoint hdbLabel content).embeddings[i]?).map
            (hdbLabel (runFit encode umapPoint hdbLabel content).topic_model.hdbscan_model
              (runFit encode umapPoint hdbLabel content).embeddings)) := by
  refine ⟨?_, ?_, ?_, fun i => ⟨?_, ?_, ?_⟩⟩ <;>
    simp [runFit, umapFitTransform, bertopicFitTransform, List.getElem?_map]

/-- C2: the 2D coordinates handed to the document-scatter renderer (line 96)
and the datamap renderer (line 105) are exactly `reduced_embeddings`, the
output of the standalone UMAP fit of line 58, and the UMAP model inside the
fitted topic model is that same fitted reduction, still fitted on the same
embedding matrix (not refit during topic-model fitting). -/
theorem C2_renderers_get_the_fitted_projection {Emb Pt : Type} (encode : List Char → Emb)
    (umapPoint : List Emb → Emb → Pt) (hdbLabel : HDBSCANParams → List Emb → Emb → Int)
    (content : List Char) :
    (runFit encode umapPoint hdbLabel content).topic_model.umap_model
      = (runFit encode umapPoint hdbLabel content).umapFitted ∧
    (runFit encode umapPoint hdbLabel content).umapFitted.fittedOn
      = some (runFit encode umapPoint hdbLabel content).embeddings ∧
    (runFit encode umapPoint hdbLabel content).reduced_embeddings
      = (runFit encode umapPoint hdbLabel content).embeddings.map
          (umapPoint (runFit encode umapPoint hdbLabel content).embeddings) ∧
    (runFit encode umapPoint hdbLabel content).visualizeDocumentsCoords
      = (runFit encode umapPoint hdbLabel content).reduced_embeddings ∧
    (runFit encode umapPoint hdbLabel content).visualizeDatamapCoords
      = (runFit encode umapPoint hdbLabel content).reduced_embeddings :=
  ⟨rfl, rfl, rfl, rfl, rfl⟩

/-- C3: during topic-model fitting the clusterer operates on the original
full-dimensional embeddings (the encoder's output, handed to `fit_transform`
at line 85), not on the 2D projection: its input is `docs.map encode`, its
configuration is the `HDBSCAN(...)` of lines 64-70, and the topic labels are
computed from that input. -/
theorem C3_clusterer_runs_on_embeddings {Emb Pt : Type} (encode : List Char → Emb)
    (umapPoint : List Emb → Emb → Pt) (hdbLabel : HDBSCANParams → List Emb → Emb → Int)
    (content : List Char) :
    (runFit encode umapPoint hdbLabel content).clustererInput
      = (runFit encode umapPoint hdbLabel content).embeddings ∧
    (runFit encode umapPoint hdbLabel content).embeddings
      = (loadDocs content).map encode ∧
    (runFit encode umapPoint hdbLabel content).topics
      = (runFit encode umapPoint hdbLabel content).clustererInput.map
          (hdbLabel (runFit encode umapPoint hdbLabel content).topic_model.hdbscan_model
            (runFit encode umapPoint hdbLabel content).clustererInput) ∧
    (runFit encode umapPoint hdbLabel content).topic_model.hdbscan_model
      = mkHdbscanParams (loadDocs content).length :=
  ⟨rfl, rfl, rfl, rfl⟩

/-- C6: the neighborhood-size parameter is `min(15, n - 1)` over the integers:
it is at most 15 and at most `n - 1`, equals 1 at `n = 2` and 0 at `n = 1`,
and the pipeline passes exactly this value to the reducer for every corpus,
with no guard against the degenerate value. -/
theorem C6_n_neighbors_formula (n : Nat) :
    n_neighbors n ≤ 15 ∧
    n_neighbors n ≤ (n : Int) - 1 ∧
    n_neighbors 2 = 1 ∧
    n_neighbors 1 = 0 ∧
    (∀ {Emb Pt : Type} (encode : List Char → Emb) (umapPoint : List Emb → Emb → Pt)
        (hdbLabel : HDBSCANParams → List Emb → Emb → Int) (content : List Char),
      (runFit encode umapPoint hdbLabel content).umapFitted.params.n_neighbors
        = n_neighbors (loadDocs content).length) := by
  refine ⟨min_le_left _ _, min_le_right _ _, by decide, by decide, ?_⟩
  intro Emb Pt encode umapPoint hdbLabel content
  rfl

/-! ## Helper lemmas about the try/except block -/

/-- If some call in the list raises, running the list yields an exception. -/
theorem runSteps_snd_isSome_of_fail (oc : VizStep → Except String Unit) :
    ∀ (l : List VizStep) (s : VizStep), s ∈ l → (oc s).isOk = false →
      (runSteps oc l).2.isSome = true := by
  intro l
  induction l with
  | nil => intro s hs _; exact absurd hs (List.not_mem_nil s)
  | cons a t ih =>
    intro s hs he
    rcases List.mem_cons.1 hs with rfl | hs
    · cases hoc : oc s with
      | error e => simp [runSteps, hoc]
      | ok u => rw [hoc] at he; simp [Except.isOk, Except.toBool] at he
    · cases hoc : oc a with
      | error e => simp [runSteps, hoc]
      | ok u => simpa [runSteps, hoc] using ih s hs he

/-- The files written by the block when the first `n` calls succeed and the
`(n+1)`-st raises: exactly the files of the first `n` calls. -/
theorem runSteps_files_of_first_fail (oc : VizStep → Except String Unit) :
    ∀ (l : List VizStep) (n : Nat) (hn : n < l.length),
      (∀ i (hi : i < n), (oc (l.get ⟨i, hi.trans hn⟩)).isOk = true) →
      (oc (l.get ⟨n, hn⟩)).isOk = false →
      (runSteps oc l).1 = (l.take n).filterMap stepWrite := by
  intro l
  induction l with
  | nil => intro n hn; exact absurd hn (Nat.not_lt_zero n)
  | cons a t ih =>
    intro n hn hok herr
    cases n with
    | zero =>
      have ha : (oc a).isOk = false := herr
      cases hoc : oc a with
      | error e => simp [runSteps, hoc]
      | ok u => rw [hoc] at ha; simp [Except.isOk, Except.toBool] at ha
    | succ m =>
      have ha : (oc a).isOk = true := hok 0 (Nat.succ_pos m)
      cases hoc : oc a with
      | error e => rw [hoc] at ha; simp [Except.isOk, Except.toBool] at ha
      | ok u =>
        have hm : m < t.length := Nat.succ_lt_succ_iff.1 hn
        have hrec := ih m hm (fun i hi => hok (i + 1) (Nat.succ_lt_succ hi)) herr
        rw [List.take_succ_cons, List.filterMap_cons]
        cases hsw : stepWrite a <;> simp [runSteps, hoc, hsw, hrec]

/-! ## Claim theorems: visualization stage -/

/-- C4: if any of the seven render/write calls of the try block raises — for
any cause, including a corrupted fitted model — the single broad handler
catches it, the console shows the error message, the traceback, and the
topic-info table (after the note that the model itself trained), and the
process exits with code 0. -/
theorem C4_handler_catches_and_exits_zero (oc : VizStep → Except String Unit)
    (s : VizStep) (hs : s ∈ vizOrder) (he : (oc s).isOk = false) :
    (runTryBlock oc).exitCode = 0 ∧
    ∃ e, (runTryBlock oc).console
        = [ConsoleEvent.errorMessage e, ConsoleEvent.traceback e,
           ConsoleEvent.modelTrainedNote, ConsoleEvent.topicInfoTable,
           ConsoleEvent.finalNote] := by
  have hsome := runSteps_snd_isSome_of_fail oc vizOrder s hs he
  rcases Option.isSome_iff_exists.1 hsome with ⟨e, hee⟩
  unfold runTryBlock
  rw [hee]
  exact ⟨rfl, e, rfl⟩

/-- Witness for C4: every call raising (a fully corrupted model) still yields
exit code 0 and the handler's console output. -/
theorem C4_handler_catches_and_exits_zero_witness :
    (runTryBlock (fun _ => Except.error "corrupted model")).exitCode = 0 ∧
    ∃ e, (runTryBlock (fun _ => Except.error "corrupted model")).console
        = [ConsoleEvent.errorMessage e, ConsoleEvent.traceback e,
           ConsoleEvent.modelTrainedNote, ConsoleEvent.topicInfoTable,
           ConsoleEvent.finalNote] :=
  C4_handler_catches_and_exits_zero (fun _ => Except.error "corrupted model")
    VizStep.visualizeDocuments (by decide) rfl

/-- C8: when the first exception of the try block occurs at the `(n+1)`-st
call, every later render and write call is skipped: the files written are
exactly those of the first `n` calls, so no output file is written after the
first exception. -/
theorem C8_first_exception_aborts_rest (oc : VizStep → Except String Unit) (n : Nat)
    (hn : n < vizOrder.length)
    (hok : ∀ i (hi : i < n), (oc (vizOrder.get ⟨i, hi.trans hn⟩)).isOk = true)
    (herr : (oc (vizOrder.get ⟨n, hn⟩)).isOk = false) :
    (runTryBlock oc).files = (vizOrder.take n).filterMap stepWrite := by
  have h := runSteps_files_of_first_fail oc vizOrder n hn hok herr
  unfold runTryBlock
  cases hee : (runSteps oc vizOrder).2 <;> simpa using h

/-- Witness for C8: the hierarchical `write_html` (the sixth call, index 5)
raising leaves only the files of the five earlier calls, i.e. only the
document-scatter HTML; the datamap PNG is never written. -/
theorem C8_first_exception_aborts_rest_witness :
    (runTryBlock (fun s =>
        if s = VizStep.writeHierarchicalHtml then Except.error "disk full"
        else Except.ok ())).files
      = (vizOrder.take 5).filterMap stepWrite ∧
    (vizOrder.take 5).filterMap stepWrite
      = [{ name := "titles_document.html", dpi := none, bbox_inches := none }] :=
  ⟨C8_first_exception_aborts_rest
      (fun s => if s = VizStep.writeHierarchicalHtml then Except.error "disk full"
                else Except.ok ())
      5 (by decide) (by decide) (by decide),
   by decide⟩

/-- C9: when every call of the try block succeeds, exactly three files are
written, in order the interactive scatter `titles_document.html`, the
interactive dendrogram `titles_hierarchical.html`, and `titles_datamap.png`
saved at 150 DPI with a tight bounding box; all three names are built from
the hardcoded base name `FILE_NAME = "titles"`. -/
theorem C9_success_writes_three_files (oc : VizStep → Except String Unit)
    (hok : ∀ s, oc s = Except.ok ()) :
    (runTryBlock oc).files
      = [{ name := FILE_NAME ++ "_document.html", dpi := none, bbox_inches := none },
         { name := FILE_NAME ++ "_hierarchical.html", dpi := none, bbox_inches := none },
         { name := FILE_NAME ++ "_datamap.png", dpi := some 150, bbox_inches := some "tight" }] ∧
    (runTryBlock oc).files.map FileWrite.name
      = ["titles_document.html", "titles_hierarchical.html", "titles_datamap.png"] ∧
    FILE_NAME = "titles" := by
  have hfile : (runTryBlock oc).files
      = [{ name := FILE_NAME ++ "_document.html", dpi := none, bbox_inches := none },
         { name := FILE_NAME ++ "_hierarchical.html", dpi := none, bbox_inches := none },
         { name := FILE_NAME ++ "_datamap.png", dpi := some 150,
           bbox_inches := some "tight" }] := by
    simp [runTryBlock, runSteps, vizOrder, hok, stepWrite]
  refine ⟨hfile, ?_, rfl⟩
  rw [hfile]
  decide

/-- Witness for C9: the all-successful run. -/
theorem C9_success_writes_three_files_witness :
    (runTryBlock (fun _ => Except.ok ())).files
      = [{ name := FILE_NAME ++ "_document.html", dpi := none, bbox_inches := none },
         { name := FILE_NAME ++ "_hierarchical.html", dpi := none, bbox_inches := none },
         { name := FILE_NAME ++ "_datamap.png", dpi := some 150, bbox_inches := some "tight" }] ∧
    (runTryBlock (fun _ => Except.ok ())).files.map FileWrite.name
      = ["titles_document.html", "titles_hierarchical.html", "titles_datamap.png"] ∧
    FILE_NAME = "titles" :=
  C9_success_writes_three_files (fun _ => Except.ok ()) (fun _ => rfl)

/-! ## Claim theorem: determinism -/

/-- C7: the pipeline is a deterministic function of its input: the script
fixes the reducer seed to 42, forces single-threaded execution of the
reducer, the clusterer, and (through five environment variables) every
numeric library, and under the resulting model of the collaborators as pure
functions, two runs with the same input file content and the same library
behavior produce identical fitted artifacts and identical output files. -/
theorem C7_fixed_seed_single_thread_deterministic {Emb Pt : Type}
    (encode encode2 : List Char → Emb) (umapPoint umapPoint2 : List Emb → Emb → Pt)
    (hdbLabel hdbLabel2 : HDBSCANParams → List Emb → Emb → Int)
    (content content2 : List Char) (oc oc2 : VizStep → Except String Unit)
    (he : encode = encode2) (hu : umapPoint = umapPoint2) (hh : hdbLabel = hdbLabel2)
    (hc : content = content2) (ho : oc = oc2) :
    runFit encode umapPoint hdbLabel content = runFit encode2 umapPoint2 hdbLabel2 content2 ∧
    runTryBlock oc = runTryBlock oc2 ∧
    (runFit encode umapPoint hdbLabel content).umapFitted.params.random_state = 42 ∧
    (runFit encode umapPoint hdbLabel content).umapFitted.params.n_jobs = 1 ∧
    (runFit encode umapPoint hdbLabel content).topic_model.hdbscan_model.core_dist_n_jobs = 1 ∧
    envSetup.map Prod.snd = ["1", "1", "1", "1", "1"] := by
  subst he hu hh hc ho
  exact ⟨rfl, rfl, rfl, rfl, rfl, by decide⟩

/-- Witness for C7 at a concrete instantiation of the collaborators and a
concrete two-line input file. -/
theorem C7_fixed_seed_single_thread_deterministic_witness :
    runFit (fun d => d.length) (fun _ _ => (0 : Nat)) (fun _ _ _ => (0 : Int)) "a\nb\n".data
      = runFit (fun d => d.length) (fun _ _ => (0 : Nat)) (fun _ _ _ => (0 : Int)) "a\nb\n".data ∧
    runTryBlock (fun _ => Except.ok ()) = runTryBlock (fun _ => Except.ok ()) ∧
    (runFit (fun d => d.length) (fun _ _ => (0 : Nat)) (fun _ _ _ => (0 : Int))
        "a\nb\n".data).umapFitted.params.random_state = 42 ∧
    (runFit (fun d => d.length) (fun _ _ => (0 : Nat)) (fun _ _ _ => (0 : Int))
        "a\nb\n".data).umapFitted.params.n_jobs = 1 ∧
    (runFit (fun d => d.length) (fun _ _ => (0 : Nat)) (fun _ _ _ => (0 : Int))
        "a\nb\n".data).topic_model.hdbscan_model.core_dist_n_jobs = 1 ∧
    envSetup.map Prod.snd = ["1", "1", "1", "1", "1"] :=
  C7_fixed_seed_single_thread_deterministic
    (fun d => d.length) (fun d => d.length) (fun _ _ => (0 : Nat)) (fun _ _ => (0 : Nat))
    (fun _ _ _ => (0 : Int)) (fun _ _ _ => (0 : Int)) "a\nb\n".data "a\nb\n".data
    (fun _ => Except.ok ()) (fun _ => Except.ok ()) rfl rfl rfl rfl rfl
